import Mathlib

/-!
Verification development for the HydraRoute autoscaler.

Shallow embedding conventions:
* Go `float64` values are modelled as exact rationals (`ℚ`); the numeric
  code under scrutiny consists of products, sums, divisions and
  comparisons, none of which sit near a rounding boundary in the claims.
* The logistic sigmoid (the one transcendental in the source,
  `1/(1 + exp(-x))`) is abstracted as a parameter `sig : ℚ → ℚ`;
  theorems about trained-model outputs assume only its defining analytic
  property `0 < sig x < 1`.
* Go `int32` replica counts are modelled as `ℤ` (the replica arithmetic
  in the source stays far from the 2^31 boundary on all inputs the
  claims quantify over).
* `time.Time` / `time.Duration` are modelled as `ℤ` instants/spans.
* Go maps keyed by `namespace/name` strings are modelled as functions
  `String → Option _`.
* Fallible Go functions returning `error` are modelled with
  `Except String _` or an `Option String` error component.
-/

namespace HydraAI

/-! ### String constants from the source -/

def slashStr : String := "/"

def commaSep : String := ", "

def errNilMetrics : String := "metrics data is nil"

def errPredictionFailed : String := "model prediction failed: "

def errInsufficientData : String := "insufficient training data"

def errMatrixInverse : String := "failed to compute matrix inverse"

def errAllModelsFailed : String := "all models failed to predict"

def msgHighCPU : String := "high CPU utilization"

def msgHighMemory : String := "high memory utilization"

def msgHighRequestRate : String := "high request rate"

def msgHighErrorRate : String := "elevated error rate"

def msgSlowResponse : String := "slow response times"

def msgModelScaleUp : String := "AI model recommends scaling up"

def msgModelScaleDown : String := "AI model recommends scaling down"

def msgNoScaling : String := "No scaling needed based on current metrics"

def msgScalingUpDueTo : String := "Scaling up due to: "

def msgScalingDownDueTo : String := "Scaling down due to: "

def strCpuMetric : String := "cpu"

def strMemoryMetric : String := "memory"

def strRequestsMetric : String := "requests"

def errNoDeploymentFound : String := "no deployment found for service "

def strNeuralNetwork : String := "neural_network"

def strEnsemble : String := "ensemble"

/-- Key of the per-ingress minimum-replicas override
(`hydra-route.ai/min-replicas` in the source). -/
def annMinReplicasKey : String := "hydra-route.ai/min-replicas"

/-- Key of the per-ingress maximum-replicas override
(`hydra-route.ai/max-replicas` in the source). -/
def annMaxReplicasKey : String := "hydra-route.ai/max-replicas"

/-! ### Data model (internal/metrics, internal/scaler, pkg/config) -/

/-- `metrics.MetricsData`: one time-stamped snapshot for a target.
The two string tags `IngressClass`/`LoadBalancerIP` carry no logic and
are omitted. -/
structure MetricsData where
  Timestamp : ℤ
  ServiceName : String
  NamespaceName : String
  CPUUtilization : ℚ
  MemoryUtilization : ℚ
  RequestRate : ℚ
  ResponseTime : ℚ
  ErrorRate : ℚ
  NetworkBandwidth : ℚ
  IOBandwidth : ℚ
  CurrentReplicas : ℤ
  DesiredReplicas : ℤ
deriving DecidableEq

/-- `scaler.FeatureVector`: the twelve model inputs. -/
structure FeatureVector where
  CPUUtilization : ℚ
  MemoryUtilization : ℚ
  RequestRate : ℚ
  NetworkBandwidth : ℚ
  IOBandwidth : ℚ
  ResponseTime : ℚ
  ErrorRate : ℚ
  TimeOfDay : ℚ
  DayOfWeek : ℚ
  TrendCPU : ℚ
  TrendMemory : ℚ
  TrendRequests : ℚ
deriving DecidableEq

/-- `config.AIModelConfig` (the fields the scaler logic reads). -/
structure AIModelConfig where
  ModelType : String
  LearningRate : ℚ
  EnableOnlineLearning : Bool
deriving DecidableEq

/-- `config.CooldownConfig`: two durations. -/
structure CooldownConfig where
  ScaleUpCooldown : ℤ
  ScaleDownCooldown : ℤ
deriving DecidableEq

/-- `config.ScalingConfig` (the fields the scaler logic reads). -/
structure ScalingConfig where
  MinReplicas : ℤ
  MaxReplicas : ℤ
  Cooldown : CooldownConfig
  AIModel : AIModelConfig
deriving DecidableEq

/-- `scaler.TrainingData`. -/
structure TrainingData where
  Features : FeatureVector
  ActualScale : ℚ
  Performance : ℚ
  Timestamp : ℤ
deriving DecidableEq

/-- `scaler.LinearModel`. -/
structure LinearModel where
  Weights : List ℚ
  Bias : ℚ
  IsTrained : Bool
  Config : AIModelConfig
deriving DecidableEq

/-- `scaler.NeuralNetwork`.  The `InputLayer`/`OutputLayer` fields of the
source are read by no function and are omitted; the two gonum matrices
are modelled as row-major rational lists. -/
structure NeuralNetwork where
  HiddenLayer : List ℚ
  Weights1 : List (List ℚ)
  Weights2 : List (List ℚ)
  Bias1 : List ℚ
  Bias2 : List ℚ
  LearningRate : ℚ
  IsTrained : Bool
  Config : AIModelConfig
deriving DecidableEq

/-- A non-ensemble member model.  The source's `AIModel` interface admits
arbitrary implementations, but the only constructor (`createModel`) ever
places `LinearModel` and `NeuralNetwork` values inside an ensemble, so
members are modelled by this flat sum. -/
inductive BaseModel where
  | linear (lm : LinearModel)
  | neural (nn : NeuralNetwork)
deriving DecidableEq

/-- `scaler.EnsembleModel`. -/
structure EnsembleModel where
  Models : List BaseModel
  Weights : List ℚ
  Config : AIModelConfig
deriving DecidableEq

/-- The `scaler.AIModel` interface value held by `AIScaler`. -/
inductive Model where
  | base (b : BaseModel)
  | ensemble (em : EnsembleModel)
deriving DecidableEq

/-- The zero value `config.AIModelConfig{}`. -/
def emptyAIModelConfig : AIModelConfig :=
  { ModelType := "", LearningRate := 0, EnableOnlineLearning := false }

/-- The Go composite literal `&LinearModel{}` (all fields at zero values). -/
def emptyLinearModel : LinearModel :=
  { Weights := [], Bias := 0, IsTrained := false, Config := emptyAIModelConfig }

/-! ### Predictors (internal/scaler, linear / neural / ensemble) -/

/-- `LinearModel.featuresToSlice`: normalization of the twelve features. -/
def LinearModel.featuresToSlice (_lm : LinearModel) (features : FeatureVector) : List ℚ :=
  [ features.CPUUtilization / 100
  , features.MemoryUtilization / 100
  , features.RequestRate / 1000
  , features.NetworkBandwidth / 100
  , features.IOBandwidth / 100
  , features.ResponseTime / 1000
  , features.ErrorRate / 100
  , features.TimeOfDay / 24
  , features.DayOfWeek / 7
  , features.TrendCPU
  , features.TrendMemory
  , features.TrendRequests ]

/-- `LinearModel.heuristicPredict`: the multiplicative threshold rules. -/
def LinearModel.heuristicPredict (_lm : LinearModel) (features : FeatureVector) : ℚ :=
  let s0 : ℚ := 1
  let s1 :=
    if features.CPUUtilization > 80 then s0 * 1.5
    else if features.CPUUtilization < 30 then s0 * 0.7
    else s0
  let s2 :=
    if features.MemoryUtilization > 80 then s1 * 1.3
    else if features.MemoryUtilization < 30 then s1 * 0.8
    else s1
  let s3 :=
    if features.RequestRate > 100 then s2 * 1.2
    else if features.RequestRate < 10 then s2 * 0.9
    else s2
  s3

/-- `LinearModel.Predict`.  The source returns a nil error on every path,
so the result is a plain pair (scale factor, confidence). -/
def LinearModel.Predict (sig : ℚ → ℚ) (lm : LinearModel) (features : FeatureVector) : ℚ × ℚ :=
  if lm.IsTrained = false then
    (lm.heuristicPredict features, 0.5)
  else
    let featureSlice := lm.featuresToSlice features
    let prediction := featureSlice.enum.foldl
      (fun acc p =>
        if p.1 < lm.Weights.length then acc + lm.Weights.getD p.1 0 * p.2 else acc)
      lm.Bias
    (0.5 + 1.5 * sig prediction, 0.8)

/-- `NeuralNetwork.featuresToSlice` (delegates to a fresh `LinearModel`). -/
def NeuralNetwork.featuresToSlice (_nn : NeuralNetwork) (features : FeatureVector) : List ℚ :=
  emptyLinearModel.featuresToSlice features

/-- `NeuralNetwork.Predict`.  The source returns a nil error on every
path.  Out-of-range matrix/bias accesses (run-time panics in Go, never
reached for the models the program constructs) are modelled as 0. -/
def NeuralNetwork.Predict (sig : ℚ → ℚ) (nn : NeuralNetwork) (features : FeatureVector) : ℚ × ℚ :=
  if nn.IsTrained = false then
    (emptyLinearModel.heuristicPredict features, 0.3)
  else
    let input := nn.featuresToSlice features
    let rows1 := nn.Weights1.length
    let cols1 := (nn.Weights1.headD []).length
    let hiddenOutput := (List.range nn.HiddenLayer.length).map fun i =>
      let sum := input.enum.foldl
        (fun acc p =>
          if i < rows1 ∧ p.1 < cols1 then
            acc + (nn.Weights1.getD i []).getD p.1 0 * p.2
          else acc)
        (nn.Bias1.getD i 0)
      sig sum
    let rows2 := nn.Weights2.length
    let output := hiddenOutput.enum.foldl
      (fun acc p =>
        if p.1 < rows2 then acc + (nn.Weights2.getD p.1 []).getD 0 0 * p.2 else acc)
      (nn.Bias2.getD 0 0)
    (0.5 + 1.5 * sig output, 0.9)

/-- Dispatch of `AIModel.Predict` for ensemble members. -/
def BaseModel.Predict (sig : ℚ → ℚ) : BaseModel → FeatureVector → ℚ × ℚ
  | BaseModel.linear lm, features => lm.Predict sig features
  | BaseModel.neural nn, features => nn.Predict sig features

/-- `EnsembleModel.Predict`: weight-normalized combination.  Member
predictions never carry an error (see `BaseModel.Predict`), so the
source's skip-on-error branch is vacuous; the member list is traversed
zipped with the weight list (`createModel` makes them equal length). -/
def EnsembleModel.Predict (sig : ℚ → ℚ) (em : EnsembleModel) (features : FeatureVector) :
    Except String (ℚ × ℚ) :=
  let acc := (em.Models.zip em.Weights).foldl
    (fun (acc : ℚ × ℚ × ℚ) p =>
      let pr := p.1.Predict sig features
      (acc.1 + pr.1 * p.2, acc.2.1 + pr.2 * p.2, acc.2.2 + p.2))
    (0, 0, 0)
  if acc.2.2 = 0 then Except.error errAllModelsFailed
  else Except.ok (acc.1 / acc.2.2, acc.2.1 / acc.2.2)

/-- Dispatch of `AIModel.Predict` for the scaler's model. -/
def Model.Predict (sig : ℚ → ℚ) : Model → FeatureVector → Except String (ℚ × ℚ)
  | Model.base b, features => Except.ok (b.Predict sig features)
  | Model.ensemble em, features => em.Predict sig features

/-! ### The AI scaler (internal/scaler) -/

/-- `scaler.ScalingDecision`. -/
structure ScalingDecision where
  ServiceName : String
  NamespaceName : String
  Timestamp : ℤ
  CurrentReplicas : ℤ
  RecommendedReplicas : ℤ
  Confidence : ℚ
  Reasoning : String
  Metrics : Option MetricsData
deriving DecidableEq

/-- `scaler.AIScaler` (the training buffer, which no claim touches, is
omitted; maps are modelled as functions). -/
structure AIScaler where
  config : ScalingConfig
  model : Model
  lastDecisions : String → Option ScalingDecision
  cooldownTracker : String → Option ℤ

/-- `AIScaler.createModel`: pick the predictor variant from configuration. -/
def createModel (cfg : ScalingConfig) : Model :=
  if cfg.AIModel.ModelType = strNeuralNetwork then
    Model.base (BaseModel.neural
      { HiddenLayer := [], Weights1 := [], Weights2 := [], Bias1 := [], Bias2 := []
      , LearningRate := cfg.AIModel.LearningRate, IsTrained := false, Config := cfg.AIModel })
  else if cfg.AIModel.ModelType = strEnsemble then
    Model.ensemble
      { Models :=
          [ BaseModel.linear { Weights := [], Bias := 0, IsTrained := false, Config := cfg.AIModel }
          , BaseModel.neural
              { HiddenLayer := [], Weights1 := [], Weights2 := [], Bias1 := [], Bias2 := []
              , LearningRate := cfg.AIModel.LearningRate, IsTrained := false, Config := cfg.AIModel } ]
      , Weights := [0.6, 0.4]
      , Config := cfg.AIModel }
  else
    Model.base (BaseModel.linear { Weights := [], Bias := 0, IsTrained := false, Config := cfg.AIModel })

/-- `scaler.NewAIScaler`. -/
def NewAIScaler (cfg : ScalingConfig) : AIScaler :=
  { config := cfg
  , model := createModel cfg
  , lastDecisions := fun _ => none
  , cooldownTracker := fun _ => none }

/-- `AIScaler.calculateTrend`: the source always returns 0.0. -/
def calculateTrend (_serviceName _namespaceName _metricType : String) : ℚ := 0

/-- `AIScaler.extractFeatures`.  The wall-clock hour and weekday read
from `time.Now()` are passed in explicitly. -/
def extractFeatures (hour weekday : ℚ) (md : MetricsData) : FeatureVector :=
  { CPUUtilization := md.CPUUtilization
  , MemoryUtilization := md.MemoryUtilization
  , RequestRate := md.RequestRate
  , NetworkBandwidth := md.NetworkBandwidth
  , IOBandwidth := md.IOBandwidth
  , ResponseTime := md.ResponseTime
  , ErrorRate := md.ErrorRate
  , TimeOfDay := hour
  , DayOfWeek := weekday
  , TrendCPU := calculateTrend md.ServiceName md.NamespaceName strCpuMetric
  , TrendMemory := calculateTrend md.ServiceName md.NamespaceName strMemoryMetric
  , TrendRequests := calculateTrend md.ServiceName md.NamespaceName strRequestsMetric }

/-- `AIScaler.calculateRecommendedReplicas`: dead band then ceil/floor. -/
def calculateRecommendedReplicas (currentReplicas : ℤ) (scaleFactor : ℚ) : ℤ :=
  if scaleFactor > 1.1 then Int.ceil ((currentReplicas : ℚ) * scaleFactor)
  else if scaleFactor < 0.9 then Int.floor ((currentReplicas : ℚ) * scaleFactor)
  else currentReplicas

/-- `AIScaler.applyConstraints`: clamp to the process-wide config bounds. -/
def applyConstraints (cfg : ScalingConfig) (replicas : ℤ) : ℤ :=
  if replicas < cfg.MinReplicas then cfg.MinReplicas
  else if replicas > cfg.MaxReplicas then cfg.MaxReplicas
  else replicas

/-- `AIScaler.generateReasoning` (numeric formatting of factor and
confidence inside the message elided). -/
def generateReasoning (features : FeatureVector) (scaleFactor _confidence : ℚ) : String :=
  let reasons : List String :=
    (if features.CPUUtilization > 80 then [msgHighCPU] else []) ++
    (if features.MemoryUtilization > 80 then [msgHighMemory] else []) ++
    (if features.RequestRate > 100 then [msgHighRequestRate] else []) ++
    (if features.ErrorRate > 5 then [msgHighErrorRate] else []) ++
    (if features.ResponseTime > 1000 then [msgSlowResponse] else [])
  if reasons.length = 0 then
    if scaleFactor > 1.1 then msgModelScaleUp
    else if scaleFactor < 0.9 then msgModelScaleDown
    else msgNoScaling
  else
    (if scaleFactor < 1 then msgScalingDownDueTo else msgScalingUpDueTo) ++
      String.intercalate commaSep reasons

/-- `AIScaler.isInCooldown`: the source ORs both direction timers against
the single stored timestamp, whatever the direction of the last action. -/
def isInCooldown (s : AIScaler) (now : ℤ) (key : String) : Bool :=
  match s.cooldownTracker key with
  | none => false
  | some lastTime =>
    decide (now - lastTime < s.config.Cooldown.ScaleUpCooldown) ||
    decide (now - lastTime < s.config.Cooldown.ScaleDownCooldown)

/-- `AIScaler.storeDecision`: remember the decision; update the cooldown
timestamp only when the decision changes the replica count. -/
def storeDecision (s : AIScaler) (key : String) (decision : ScalingDecision) : AIScaler :=
  { s with
    lastDecisions := fun k => if k = key then some decision else s.lastDecisions k
  , cooldownTracker :=
      if decision.CurrentReplicas ≠ decision.RecommendedReplicas then
        fun k => if k = key then some decision.Timestamp else s.cooldownTracker k
      else s.cooldownTracker }

/-- Cooldown key `namespace/serviceName` built by `fmt.Sprintf`. -/
def cooldownKey (md : MetricsData) : String :=
  md.NamespaceName ++ slashStr ++ md.ServiceName

/-- `AIScaler.MakeScalingDecision`.  Wall-clock inputs (`now`, hour,
weekday) are explicit; the returned pair is (result, updated scaler). -/
def MakeScalingDecision (sig : ℚ → ℚ) (now : ℤ) (hour weekday : ℚ)
    (s : AIScaler) (metricsData : Option MetricsData) :
    Except String (Option ScalingDecision) × AIScaler :=
  match metricsData with
  | none => (Except.error errNilMetrics, s)
  | some md =>
    let key := cooldownKey md
    if isInCooldown s now key then (Except.ok none, s)
    else
      let features := extractFeatures hour weekday md
      match s.model.Predict sig features with
      | Except.error e => (Except.error (errPredictionFailed ++ e), s)
      | Except.ok pr =>
        let currentReplicas := if md.CurrentReplicas = 0 then 1 else md.CurrentReplicas
        let recommendedReplicas :=
          applyConstraints s.config (calculateRecommendedReplicas currentReplicas pr.1)
        let decision : ScalingDecision :=
          { ServiceName := md.ServiceName
          , NamespaceName := md.NamespaceName
          , Timestamp := now
          , CurrentReplicas := currentReplicas
          , RecommendedReplicas := recommendedReplicas
          , Confidence := pr.2
          , Reasoning := generateReasoning features pr.1 pr.2
          , Metrics := some md }
        (Except.ok (some decision), storeDecision s key decision)

/-! ### Linear-model training (internal/scaler) -/

/-- Number of features (`numFeatures` in `LinearModel.Train`). -/
def numFeatures : ℕ := 12

/-- The design matrix `X` built by `LinearModel.Train`. -/
def trainX (lm : LinearModel) (data : List TrainingData) :
    Matrix (Fin data.length) (Fin numFeatures) ℚ :=
  Matrix.of fun i j => (lm.featuresToSlice (data.get i).Features).getD j 0

/-- The response vector `y` built by `LinearModel.Train`. -/
def trainY (data : List TrainingData) : Fin data.length → ℚ :=
  fun i => (data.get i).ActualScale

/-- `LinearModel.Train`: ordinary least squares by the normal equation.
gonum's `Inverse` fails exactly on a singular matrix, modelled by the
determinant test; the rational inverse is `det⁻¹ • adjugate`.  The result
pair is (model after the call, error); on every failure path the source
returns before assigning any field, so the model comes back unchanged. -/
def LinearModel.Train (lm : LinearModel) (data : List TrainingData) :
    LinearModel × Option String :=
  if data.length < 10 then (lm, some errInsufficientData)
  else
    let X := trainX lm data
    let y := trainY data
    let xTx := X.transpose * X
    if xTx.det = 0 then (lm, some errMatrixInverse)
    else
      let xTxInv := xTx.det⁻¹ • xTx.adjugate
      let xTy := X.transpose.mulVec y
      let w := xTxInv.mulVec xTy
      ({ lm with Weights := List.ofFn w, IsTrained := true }, none)

/-! ### Reconciliation controller (internal/controller) -/

/-- The backing workload.  The provenance annotations the controller
stamps are string-formatted in Go; they are modelled with native types. -/
structure Deployment where
  Replicas : ℤ
  LastScaled : Option ℤ
  ScaleReason : Option String
  ConfidenceTag : Option ℚ
deriving DecidableEq

/-- Ingress metadata: the annotation map, with numeric annotation values
modelled post-parse as integers. -/
def IngressMeta : Type := String → Option ℤ

/-- `HydraRouteReconciler.applyScalingDecision` restricted to the found
deployment: dry-run logs and leaves the workload untouched; otherwise the
replica count is set and provenance is stamped. -/
def applyScalingDecision (dryRun : Bool) (now : ℤ) (decision : ScalingDecision)
    (dep : Option Deployment) : Except String (Option Deployment) :=
  match dep with
  | none => Except.error (errNoDeploymentFound ++ decision.ServiceName)
  | some dp =>
    if dryRun then Except.ok (some dp)
    else
      Except.ok (some
        { dp with
          Replicas := decision.RecommendedReplicas
        , LastScaled := some now
        , ScaleReason := some decision.Reasoning
        , ConfidenceTag := some decision.Confidence })

/-- `HydraRouteReconciler.processService` for one target: make the
decision, skip when none or unchanged, then apply.  The ingress argument
is carried but, as in the source, never consulted for bounds.  Returns
(updated scaler, updated deployment, error). -/
def processService (dryRun : Bool) (sig : ℚ → ℚ) (now : ℤ) (hour weekday : ℚ)
    (_ingress : IngressMeta) (s : AIScaler) (dep : Option Deployment)
    (metricsData : Option MetricsData) :
    AIScaler × Option Deployment × Option String :=
  match metricsData with
  | none => (s, dep, none)
  | some md =>
    match MakeScalingDecision sig now hour weekday s (some md) with
    | (Except.error e, s2) => (s2, dep, some e)
    | (Except.ok none, s2) => (s2, dep, none)
    | (Except.ok (some decision), s2) =>
      if decision.CurrentReplicas = decision.RecommendedReplicas then (s2, dep, none)
      else
        match applyScalingDecision dryRun now decision dep with
        | Except.error e => (s2, dep, some e)
        | Except.ok dep2 => (s2, dep2, none)

/-- One reconcile input for a single target: observation time and the
latest snapshot the aggregator serves (none when it has nothing). -/
structure ReconcileInput where
  now : ℤ
  hour : ℚ
  weekday : ℚ
  metricsData : Option MetricsData

/-- A sequence of reconcile passes over one target, folding
`processService` over the inputs. -/
def runReconciles (dryRun : Bool) (sig : ℚ → ℚ) (ingress : IngressMeta)
    (st : AIScaler × Option Deployment) (inputs : List ReconcileInput) :
    AIScaler × Option Deployment :=
  inputs.foldl
    (fun st inp =>
      let r := processService dryRun sig inp.now inp.hour inp.weekday ingress st.1 st.2 inp.metricsData
      (r.1, r.2.1))
    st

/-- Modelled from the spec: the *effective minimum bound*, the
process-wide default overridden by the ingress's `min-replicas`
annotation when present.  The source defines the annotation key and a
`getAnnotationValue` helper but never applies them to bounds; this
definition follows the specification's words for comparison. -/
def effectiveMin (cfg : ScalingConfig) (ingress : IngressMeta) : ℤ :=
  match ingress annMinReplicasKey with
  | some v => v
  | none => cfg.MinReplicas

/-- Modelled from the spec: the *effective maximum bound*, the
process-wide default overridden by the ingress's `max-replicas`
annotation when present (see `effectiveMin`). -/
def effectiveMax (cfg : ScalingConfig) (ingress : IngressMeta) : ℤ :=
  match ingress annMaxReplicasKey with
  | some v => v
  | none => cfg.MaxReplicas

/-! ### Telemetry aggregator (internal/metrics) -/

/-- `Collector.storeMetrics` on one target's history: append. -/
def storeMetrics (history : List MetricsData) (md : MetricsData) : List MetricsData :=
  history ++ [md]

/-- `Collector.cleanOldMetrics` on one target's history: keep the
snapshots whose timestamp is strictly after `now − retention`
(`Timestamp.After(cutoff)` in the source). -/
def cleanOldMetrics (now retention : ℤ) (history : List MetricsData) : List MetricsData :=
  history.filter fun md => now - retention < md.Timestamp

/-- One collection cycle for one target, as run by
`Collector.collectMetrics`: store the freshly built snapshot, then evict
old entries. -/
def collectCycle (now retention : ℤ) (history : List MetricsData) (md : MetricsData) :
    List MetricsData :=
  cleanOldMetrics now retention (storeMetrics history md)

/-- Histories are kept in non-decreasing timestamp order. -/
def TimestampSorted (history : List MetricsData) : Prop :=
  history.Pairwise fun a b => a.Timestamp ≤ b.Timestamp

/-! ### Concrete fixtures used by witnesses and counterexamples -/

/-- A concrete stand-in for the logistic sigmoid: constant one half
(vacuous on untrained prediction paths, which never call it). -/
def sigHalf : ℚ → ℚ := fun _ => 1/2

def svcName : String := "web"

def nsName : String := "default"

def strLinear : String := "linear"

/-- A concrete configuration: bounds 1..10, scale-up cooldown 10,
scale-down cooldown 100, linear model. -/
def cfgA : ScalingConfig :=
  { MinReplicas := 1, MaxReplicas := 10
  , Cooldown := { ScaleUpCooldown := 10, ScaleDownCooldown := 100 }
  , AIModel := { ModelType := strLinear, LearningRate := 1/100, EnableOnlineLearning := false } }

/-- A snapshot with high CPU (heuristic factor 1.5) and 2 replicas. -/
def mdUp : MetricsData :=
  { Timestamp := 0, ServiceName := svcName, NamespaceName := nsName
  , CPUUtilization := 90, MemoryUtilization := 50, RequestRate := 40
  , ResponseTime := 0, ErrorRate := 0, NetworkBandwidth := 0, IOBandwidth := 0
  , CurrentReplicas := 2, DesiredReplicas := 2 }

/-- A snapshot with every heuristic threshold exceeded (factor 2.34). -/
def mdBig : MetricsData :=
  { mdUp with CPUUtilization := 90, MemoryUtilization := 90, RequestRate := 200 }

/-- The high-CPU snapshot with zero observed replicas. -/
def mdZero : MetricsData := { mdUp with CurrentReplicas := 0 }

/-- The freshly constructed scaler under `cfgA`. -/
def s0 : AIScaler := NewAIScaler cfgA

/-- The untrained linear model `createModel` builds under `cfgA`. -/
def lmA : LinearModel :=
  { Weights := [], Bias := 0, IsTrained := false, Config := cfgA.AIModel }

/-- The decision the scaler emits on `mdUp` from the fresh state. -/
def dUp : ScalingDecision :=
  { ServiceName := svcName, NamespaceName := nsName, Timestamp := 0
  , CurrentReplicas := 2, RecommendedReplicas := 3, Confidence := 1/2
  , Reasoning := msgScalingUpDueTo ++ msgHighCPU, Metrics := some mdUp }

/-- The decision the scaler emits on `mdZero` from the fresh state. -/
def dZero : ScalingDecision :=
  { ServiceName := svcName, NamespaceName := nsName, Timestamp := 0
  , CurrentReplicas := 1, RecommendedReplicas := 2, Confidence := 1/2
  , Reasoning := msgScalingUpDueTo ++ msgHighCPU, Metrics := some mdZero }

/-- Scaler state after the `mdUp` scale-up decision is stored. -/
def s1 : AIScaler := storeDecision s0 (cooldownKey mdUp) dUp

/-- A deployment with 2 replicas and no provenance stamps. -/
def dep0 : Deployment :=
  { Replicas := 2, LastScaled := none, ScaleReason := none, ConfidenceTag := none }

/-- `dep0` after the controller applies `dUp` (not in dry-run). -/
def dep3 : Deployment :=
  { Replicas := 3, LastScaled := some 0, ScaleReason := some dUp.Reasoning
  , ConfidenceTag := some (1/2) }

/-- The high-CPU snapshot re-stamped at time `t`. -/
def mdT (t : ℤ) : MetricsData := { mdUp with Timestamp := t }

/-- An ingress carrying no annotations. -/
def annNone : IngressMeta := fun _ => none

/-- An ingress whose only annotation caps `max-replicas` at 2. -/
def annOnlyMax : IngressMeta :=
  fun k => if k = annMaxReplicasKey then some 2 else none

/-- One reconcile pass input at time 0 observing `mdUp`. -/
def inp0 : ReconcileInput := { now := 0, hour := 0, weekday := 0, metricsData := some mdUp }

/-- The all-zero feature vector. -/
def fvZero : FeatureVector :=
  { CPUUtilization := 0, MemoryUtilization := 0, RequestRate := 0
  , NetworkBandwidth := 0, IOBandwidth := 0, ResponseTime := 0, ErrorRate := 0
  , TimeOfDay := 0, DayOfWeek := 0, TrendCPU := 0, TrendMemory := 0, TrendRequests := 0 }

/-- A training sample with target scale 1. -/
def tdUnit (f : FeatureVector) : TrainingData :=
  { Features := f, ActualScale := 1, Performance := 1, Timestamp := 0 }

/-- Twelve training samples whose normalized feature rows are the twelve
standard basis vectors, so the design matrix is the identity. -/
def data12 : List TrainingData :=
  [ tdUnit { fvZero with CPUUtilization := 100 }
  , tdUnit { fvZero with MemoryUtilization := 100 }
  , tdUnit { fvZero with RequestRate := 1000 }
  , tdUnit { fvZero with NetworkBandwidth := 100 }
  , tdUnit { fvZero with IOBandwidth := 100 }
  , tdUnit { fvZero with ResponseTime := 1000 }
  , tdUnit { fvZero with ErrorRate := 100 }
  , tdUnit { fvZero with TimeOfDay := 24 }
  , tdUnit { fvZero with DayOfWeek := 7 }
  , tdUnit { fvZero with TrendCPU := 1 }
  , tdUnit { fvZero with TrendMemory := 1 }
  , tdUnit { fvZero with TrendRequests := 1 } ]

/-- The decision record `MakeScalingDecision` assembles in its success
branch (abbreviation used by the structural lemmas below). -/
def decisionOf (cfg : ScalingConfig) (now : ℤ) (hour weekday : ℚ)
    (md : MetricsData) (pr : ℚ × ℚ) : ScalingDecision :=
  let currentReplicas := if md.CurrentReplicas = 0 then 1 else md.CurrentReplicas
  { ServiceName := md.ServiceName
  , NamespaceName := md.NamespaceName
  , Timestamp := now
  , CurrentReplicas := currentReplicas
  , RecommendedReplicas :=
      applyConstraints cfg (calculateRecommendedReplicas currentReplicas pr.1)
  , Confidence := pr.2
  , Reasoning := generateReasoning (extractFeatures hour weekday md) pr.1 pr.2
  , Metrics := some md }

/-! ### Structural lemmas -/

lemma heuristicPredict_receiver (lm lm2 : LinearModel) (f : FeatureVector) :
    lm.heuristicPredict f = lm2.heuristicPredict f := rfl

lemma heuristicPredict_bounds (lm : LinearModel) (f : FeatureVector) :
    63/125 ≤ lm.heuristicPredict f ∧ lm.heuristicPredict f ≤ 117/50 := by
  unfold LinearModel.heuristicPredict
  split_ifs <;> norm_num

lemma applyConstraints_bounds (cfg : ScalingConfig)
    (h : cfg.MinReplicas ≤ cfg.MaxReplicas) (r : ℤ) :
    cfg.MinReplicas ≤ applyConstraints cfg r ∧ applyConstraints cfg r ≤ cfg.MaxReplicas := by
  unfold applyConstraints
  split_ifs <;> omega

lemma isInCooldown_iff (s : AIScaler) (now : ℤ) (key : String) :
    isInCooldown s now key = true ↔
      ∃ last, s.cooldownTracker key = some last ∧
        (now - last < s.config.Cooldown.ScaleUpCooldown ∨
         now - last < s.config.Cooldown.ScaleDownCooldown) := by
  unfold isInCooldown
  cases h : s.cooldownTracker key <;> simp

lemma makeScalingDecision_emit (sig : ℚ → ℚ) (now : ℤ) (hour weekday : ℚ)
    (s : AIScaler) (md : MetricsData) (pr : ℚ × ℚ)
    (hcd : isInCooldown s now (cooldownKey md) = false)
    (hp : s.model.Predict sig (extractFeatures hour weekday md) = Except.ok pr) :
    MakeScalingDecision sig now hour weekday s (some md) =
      (Except.ok (some (decisionOf s.config now hour weekday md pr)),
        storeDecision s (cooldownKey md) (decisionOf s.config now hour weekday md pr)) := by
  simp only [MakeScalingDecision, decisionOf]
  rw [hcd, hp]
  simp

lemma makeScalingDecision_cooldown (sig : ℚ → ℚ) (now : ℤ) (hour weekday : ℚ)
    (s : AIScaler) (md : MetricsData)
    (hcd : isInCooldown s now (cooldownKey md) = true) :
    MakeScalingDecision sig now hour weekday s (some md) = (Except.ok none, s) := by
  simp only [MakeScalingDecision]
  rw [hcd]
  simp

lemma makeScalingDecision_inv (sig : ℚ → ℚ) (now : ℤ) (hour weekday : ℚ)
    (s : AIScaler) (md : MetricsData) (d : ScalingDecision)
    (h : (MakeScalingDecision sig now hour weekday s (some md)).1 = Except.ok (some d)) :
    ∃ pr, s.model.Predict sig (extractFeatures hour weekday md) = Except.ok pr ∧
      isInCooldown s now (cooldownKey md) = false ∧
      d = decisionOf s.config now hour weekday md pr := by
  cases hcd : isInCooldown s now (cooldownKey md) with
  | true => rw [makeScalingDecision_cooldown sig now hour weekday s md hcd] at h; simp at h
  | false =>
    cases hp : s.model.Predict sig (extractFeatures hour weekday md) with
    | error e =>
      simp only [MakeScalingDecision] at h
      rw [hcd, hp] at h
      simp at h
    | ok pr =>
      refine ⟨pr, rfl, rfl, ?_⟩
      rw [makeScalingDecision_emit sig now hour weekday s md pr hcd hp] at h
      simp at h
      exact h.symm

lemma makeScalingDecision_none_iff (sig : ℚ → ℚ) (now : ℤ) (hour weekday : ℚ)
    (s : AIScaler) (md : MetricsData) (pr : ℚ × ℚ)
    (hp : s.model.Predict sig (extractFeatures hour weekday md) = Except.ok pr) :
    (MakeScalingDecision sig now hour weekday s (some md)).1 = Except.ok none ↔
      isInCooldown s now (cooldownKey md) = true := by
  cases hcd : isInCooldown s now (cooldownKey md) with
  | true => rw [makeScalingDecision_cooldown sig now hour weekday s md hcd]; simp
  | false => rw [makeScalingDecision_emit sig now hour weekday s md pr hcd hp]; simp

lemma processService_scaler (dryRun : Bool) (sig : ℚ → ℚ) (now : ℤ) (hour weekday : ℚ)
    (ingr : IngressMeta) (s : AIScaler) (dep : Option Deployment)
    (md : Option MetricsData) :
    (processService dryRun sig now hour weekday ingr s dep md).1 =
      (MakeScalingDecision sig now hour weekday s md).2 := by
  cases md with
  | none => rfl
  | some md0 =>
    simp only [processService]
    rcases hr : MakeScalingDecision sig now hour weekday s (some md0) with ⟨r, s2⟩
    cases r with
    | error e => simp
    | ok od =>
      cases od with
      | none => simp
      | some d =>
        by_cases hcur : d.CurrentReplicas = d.RecommendedReplicas
        · simp [hcur]
        · simp only [hcur, if_false]
          cases happ : applyScalingDecision dryRun now d dep <;> simp

lemma processService_dry_dep (sig : ℚ → ℚ) (now : ℤ) (hour weekday : ℚ)
    (ingr : IngressMeta) (s : AIScaler) (dep : Option Deployment)
    (md : Option MetricsData) :
    (processService true sig now hour weekday ingr s dep md).2.1 = dep := by
  cases md with
  | none => rfl
  | some md0 =>
    simp only [processService]
    rcases hr : MakeScalingDecision sig now hour weekday s (some md0) with ⟨r, s2⟩
    cases r with
    | error e => simp
    | ok od =>
      cases od with
      | none => simp
      | some d =>
        by_cases hcur : d.CurrentReplicas = d.RecommendedReplicas
        · simp [hcur]
        · simp only [hcur, if_false]
          unfold applyScalingDecision
          cases dep <;> simp

lemma runReconciles_dry_dep (sig : ℚ → ℚ) (ingr : IngressMeta)
    (inputs : List ReconcileInput) (st : AIScaler × Option Deployment) :
    (runReconciles true sig ingr st inputs).2 = st.2 := by
  induction inputs generalizing st with
  | nil => rfl
  | cons inp rest ih =>
    unfold runReconciles at ih ⊢
    rw [List.foldl_cons, ih]
    exact processService_dry_dep sig inp.now inp.hour inp.weekday ingr st.1 st.2 inp.metricsData

lemma squash_bounds (s : ℚ) (h1 : 0 < s) (h2 : s < 1) :
    1/2 < 0.5 + 1.5 * s ∧ 0.5 + 1.5 * s < 47/20 := by
  norm_num
  constructor <;> linarith

lemma linearPredict_bounds (sig : ℚ → ℚ) (hsig : ∀ x, 0 < sig x ∧ sig x < 1)
    (lm : LinearModel) (f : FeatureVector) :
    1/2 < (LinearModel.Predict sig lm f).1 ∧ (LinearModel.Predict sig lm f).1 < 47/20 ∧
    0 ≤ (LinearModel.Predict sig lm f).2 ∧ (LinearModel.Predict sig lm f).2 ≤ 1 := by
  unfold LinearModel.Predict
  by_cases h : lm.IsTrained = false
  · rw [if_pos h]
    obtain ⟨h1, h2⟩ := heuristicPredict_bounds lm f
    refine ⟨by simp; linarith, by simp; linarith, by norm_num, by norm_num⟩
  · rw [if_neg h]
    simp only []
    obtain ⟨hb1, hb2⟩ := squash_bounds _ (hsig _).1 (hsig _).2
    exact ⟨hb1, hb2, by norm_num, by norm_num⟩

lemma neuralPredict_bounds (sig : ℚ → ℚ) (hsig : ∀ x, 0 < sig x ∧ sig x < 1)
    (nn : NeuralNetwork) (f : FeatureVector) :
    1/2 < (NeuralNetwork.Predict sig nn f).1 ∧ (NeuralNetwork.Predict sig nn f).1 < 47/20 ∧
    0 ≤ (NeuralNetwork.Predict sig nn f).2 ∧ (NeuralNetwork.Predict sig nn f).2 ≤ 1 := by
  unfold NeuralNetwork.Predict
  by_cases h : nn.IsTrained = false
  · rw [if_pos h]
    obtain ⟨h1, h2⟩ := heuristicPredict_bounds emptyLinearModel f
    refine ⟨by simp; linarith, by simp; linarith, by norm_num, by norm_num⟩
  · rw [if_neg h]
    simp only []
    obtain ⟨hb1, hb2⟩ := squash_bounds _ (hsig _).1 (hsig _).2
    exact ⟨hb1, hb2, by norm_num, by norm_num⟩

lemma ensemblePredict_default (sig : ℚ → ℚ) (lm : LinearModel) (nn : NeuralNetwork)
    (cfg : AIModelConfig) (f : FeatureVector) :
    EnsembleModel.Predict sig
        { Models := [BaseModel.linear lm, BaseModel.neural nn]
        , Weights := [0.6, 0.4], Config := cfg } f =
      Except.ok
        ((lm.Predict sig f).1 * 0.6 + (nn.Predict sig f).1 * 0.4,
         (lm.Predict sig f).2 * 0.6 + (nn.Predict sig f).2 * 0.4) := by
  unfold EnsembleModel.Predict
  simp [BaseModel.Predict]
  norm_num

lemma ensembleUntrained (sig : ℚ → ℚ) (lm : LinearModel) (nn : NeuralNetwork)
    (cfg : AIModelConfig) (f : FeatureVector)
    (hlm : lm.IsTrained = false) (hnn : nn.IsTrained = false) :
    EnsembleModel.Predict sig
        { Models := [BaseModel.linear lm, BaseModel.neural nn]
        , Weights := [0.6, 0.4], Config := cfg } f =
      Except.ok (lm.heuristicPredict f, 21/50) := by
  rw [ensemblePredict_default sig lm nn cfg f]
  have h1 : lm.Predict sig f = (lm.heuristicPredict f, 0.5) := by
    unfold LinearModel.Predict; rw [if_pos hlm]
  have h2 : nn.Predict sig f = (lm.heuristicPredict f, 0.3) := by
    unfold NeuralNetwork.Predict; rw [if_pos hnn]
    rw [heuristicPredict_receiver emptyLinearModel lm f]
  rw [h1, h2]
  norm_num
  ring

lemma heuristicPredict_eq_prod (lm : LinearModel) (f : FeatureVector) :
    lm.heuristicPredict f =
      (if f.CPUUtilization > 80 then (1.5 : ℚ)
        else if f.CPUUtilization < 30 then 0.7 else 1) *
      (if f.MemoryUtilization > 80 then (1.3 : ℚ)
        else if f.MemoryUtilization < 30 then 0.8 else 1) *
      (if f.RequestRate > 100 then (1.2 : ℚ)
        else if f.RequestRate < 10 then 0.9 else 1) := by
  unfold LinearModel.heuristicPredict
  split_ifs <;> norm_num

/-! ### Concrete evaluation lemmas for the fixtures -/

lemma model_s0 : s0.model = Model.base (BaseModel.linear lmA) := by
  simp [s0, NewAIScaler, createModel, cfgA, lmA, strLinear, strNeuralNetwork, strEnsemble]

lemma predict_s0_up :
    s0.model.Predict sigHalf (extractFeatures 0 0 mdUp) = Except.ok (3/2, 1/2) := by
  rw [model_s0]
  simp only [Model.Predict, BaseModel.Predict]
  unfold LinearModel.Predict
  rw [if_pos (show lmA.IsTrained = false from rfl)]
  norm_num [LinearModel.heuristicPredict, extractFeatures, mdUp, calculateTrend]

lemma predict_s0_mdZero :
    s0.model.Predict sigHalf (extractFeatures 0 0 mdZero) = Except.ok (3/2, 1/2) := by
  rw [model_s0]
  simp only [Model.Predict, BaseModel.Predict]
  unfold LinearModel.Predict
  rw [if_pos (show lmA.IsTrained = false from rfl)]
  norm_num [LinearModel.heuristicPredict, extractFeatures, mdZero, mdUp, calculateTrend]

lemma decisionOf_mdUp : decisionOf s0.config 0 0 0 mdUp (3/2, 1/2) = dUp := by
  unfold decisionOf dUp
  have hcur : (if mdUp.CurrentReplicas = 0 then 1 else mdUp.CurrentReplicas) = 2 := by
    simp [mdUp]
  have hrec : applyConstraints s0.config (calculateRecommendedReplicas 2 (3/2)) = 3 := by
    have h1 : calculateRecommendedReplicas 2 (3/2) = 3 := by
      unfold calculateRecommendedReplicas
      rw [if_pos (by norm_num)]
      norm_num [Int.ceil_eq_iff]
    rw [h1]
    simp [applyConstraints, s0, NewAIScaler, cfgA]
  have hreas : generateReasoning (extractFeatures 0 0 mdUp) (3/2) (1/2) =
      msgScalingUpDueTo ++ msgHighCPU := by
    unfold generateReasoning
    norm_num [extractFeatures, mdUp, calculateTrend]
    rfl
  rw [hcur]
  simp only []
  rw [hrec, hreas]
  rfl

lemma decisionOf_mdZero : decisionOf s0.config 0 0 0 mdZero (3/2, 1/2) = dZero := by
  unfold decisionOf dZero
  have hcur : (if mdZero.CurrentReplicas = 0 then 1 else mdZero.CurrentReplicas) = 1 := by
    simp [mdZero, mdUp]
  have hrec : applyConstraints s0.config (calculateRecommendedReplicas 1 (3/2)) = 2 := by
    have h1 : calculateRecommendedReplicas 1 (3/2) = 2 := by
      unfold calculateRecommendedReplicas
      rw [if_pos (by norm_num)]
      norm_num [Int.ceil_eq_iff]
    rw [h1]
    simp [applyConstraints, s0, NewAIScaler, cfgA]
  have hreas : generateReasoning (extractFeatures 0 0 mdZero) (3/2) (1/2) =
      msgScalingUpDueTo ++ msgHighCPU := by
    unfold generateReasoning
    norm_num [extractFeatures, mdZero, mdUp, calculateTrend]
    rfl
  rw [hcur]
  simp only []
  rw [hrec, hreas]
  rfl

lemma msd_up : MakeScalingDecision sigHalf 0 0 0 s0 (some mdUp) = (Except.ok (some dUp), s1) := by
  rw [makeScalingDecision_emit sigHalf 0 0 0 s0 mdUp (3/2, 1/2) rfl predict_s0_up]
  rw [decisionOf_mdUp]
  rfl

lemma cooldown_s1 : isInCooldown s1 50 (cooldownKey mdUp) = true := by
  unfold isInCooldown s1 storeDecision
  simp only []
  rw [if_pos (by decide : dUp.CurrentReplicas ≠ dUp.RecommendedReplicas)]
  norm_num [dUp, s0, NewAIScaler, cfgA]

lemma tracker_s1 : s1.cooldownTracker (cooldownKey mdUp) = some 0 := by
  unfold s1 storeDecision
  simp only []
  rw [if_pos (by decide : dUp.CurrentReplicas ≠ dUp.RecommendedReplicas)]
  simp [dUp]

lemma ps_dry :
    processService true sigHalf 0 0 0 annNone s0 (some dep0) (some mdUp) =
      (s1, some dep0, none) := by
  simp only [processService]
  rw [msd_up]
  rfl

lemma ps_wet :
    processService false sigHalf 0 0 0 annOnlyMax s0 (some dep0) (some mdUp) =
      (s1, some dep3, none) := by
  simp only [processService]
  rw [msd_up]
  rfl

set_option maxHeartbeats 1600000 in
lemma trainX_data12 :
    trainX emptyLinearModel data12 =
      (1 : Matrix (Fin numFeatures) (Fin numFeatures) ℚ) := by
  ext i j
  fin_cases i <;> fin_cases j <;>
    norm_num [trainX, data12, tdUnit, fvZero, LinearModel.featuresToSlice, Matrix.one_apply,
      Fin.ext_iff]

lemma xTx_data12 :
    (trainX emptyLinearModel data12).transpose * trainX emptyLinearModel data12 =
      (1 : Matrix (Fin numFeatures) (Fin numFeatures) ℚ) := by
  rw [trainX_data12]
  simp

lemma det_of_eq_one {n : Type} [Fintype n] [DecidableEq n] {A : Matrix n n ℚ}
    (h : A = 1) : ¬ A.det = 0 := by
  subst h
  rw [Matrix.det_one]
  norm_num

lemma train_success_of (lm : LinearModel) (data : List TrainingData)
    (hlen : ¬ (data.length < 10))
    (hdet : ¬ ((trainX lm data).transpose * trainX lm data).det = 0) :
    (LinearModel.Train lm data).2 = none := by
  unfold LinearModel.Train
  rw [if_neg hlen]
  simp only []
  rw [if_neg hdet]

lemma train_data12_success : (LinearModel.Train emptyLinearModel data12).2 = none := by
  apply train_success_of
  · have h : data12.length = 12 := by simp [data12]
    omega
  · exact det_of_eq_one xTx_data12

/-! ### Claim theorems -/

/-- Claim C4 counterexample: the claim asserts that every predictor
variant that returns without error yields a scale factor strictly
between 0.5 and 2.0.  The untrained linear predictor (the heuristic
fallback) on a snapshot with CPU 90, memory 90 and request rate 200
returns factor 1.5 × 1.3 × 1.2 = 2.34, which is not below 2.0. -/
theorem claim_C4_cex :
    (LinearModel.Predict sigHalf emptyLinearModel (extractFeatures 0 0 mdBig)).1 = 117/50 ∧
    ¬ ((117 : ℚ)/50 < 2) := by
  constructor
  · norm_num [LinearModel.Predict, LinearModel.heuristicPredict, emptyLinearModel,
      extractFeatures, calculateTrend, mdBig, mdUp]
  · norm_num

/-- Claim C4, amended: for every feature vector, every predictor variant
the program constructs (linear, neural, and the default-weight ensemble
of the two, trained or untrained, the heuristic fallback included)
returns a scale factor strictly between 0.5 and 2.35 — the trained
paths squash into (0.5, 2.0), while the heuristic fallback ranges over
[0.504, 2.34] — and a confidence in [0, 1]. -/
theorem claim_C4 (sig : ℚ → ℚ) (hsig : ∀ x, 0 < sig x ∧ sig x < 1) :
    (∀ (lm : LinearModel) (f : FeatureVector),
      1/2 < (LinearModel.Predict sig lm f).1 ∧ (LinearModel.Predict sig lm f).1 < 47/20 ∧
      0 ≤ (LinearModel.Predict sig lm f).2 ∧ (LinearModel.Predict sig lm f).2 ≤ 1)
    ∧ (∀ (nn : NeuralNetwork) (f : FeatureVector),
      1/2 < (NeuralNetwork.Predict sig nn f).1 ∧ (NeuralNetwork.Predict sig nn f).1 < 47/20 ∧
      0 ≤ (NeuralNetwork.Predict sig nn f).2 ∧ (NeuralNetwork.Predict sig nn f).2 ≤ 1)
    ∧ (∀ (lm : LinearModel) (nn : NeuralNetwork) (cfg : AIModelConfig)
        (f : FeatureVector) (pr : ℚ × ℚ),
      EnsembleModel.Predict sig
          { Models := [BaseModel.linear lm, BaseModel.neural nn]
          , Weights := [0.6, 0.4], Config := cfg } f = Except.ok pr →
      1/2 < pr.1 ∧ pr.1 < 47/20 ∧ 0 ≤ pr.2 ∧ pr.2 ≤ 1) := by
  refine ⟨linearPredict_bounds sig hsig, neuralPredict_bounds sig hsig, ?_⟩
  intro lm nn cfg f pr h
  rw [ensemblePredict_default sig lm nn cfg f] at h
  obtain ⟨l1, l2, l3, l4⟩ := linearPredict_bounds sig hsig lm f
  obtain ⟨n1, n2, n3, n4⟩ := neuralPredict_bounds sig hsig nn f
  have hpr : pr = ((lm.Predict sig f).1 * 0.6 + (nn.Predict sig f).1 * 0.4,
      (lm.Predict sig f).2 * 0.6 + (nn.Predict sig f).2 * 0.4) := by
    simpa using h.symm
  subst hpr
  refine ⟨?_, ?_, ?_, ?_⟩ <;> · simp only []; norm_num; linarith

/-- Claim C7 counterexample: the claim asserts the returned confidence
is exactly 0.5 whenever the active predictor is untrained, but the
untrained neural-network predictor returns confidence 0.3. -/
theorem claim_C7_cex :
    (NeuralNetwork.Predict sigHalf
        { HiddenLayer := [], Weights1 := [], Weights2 := [], Bias1 := [], Bias2 := []
        , LearningRate := 1/100, IsTrained := false, Config := cfgA.AIModel }
        (extractFeatures 0 0 mdUp)).2 = 3/10 ∧
    ¬ ((3 : ℚ)/10 = 1/2) := by
  constructor
  · norm_num [NeuralNetwork.Predict]
  · norm_num

/-- Claim C7, amended: whenever the active predictor reports it is not
trained, the predicted scale factor equals the multiplicative heuristic
(×1.5 if CPU>80 else ×0.7 if CPU<30, ×1.3 if memory>80 else ×0.8 if
memory<30, ×1.2 if rate>100 else ×0.9 if rate<10); the returned
confidence is 0.5 for the linear predictor but 0.3 for the
neural-network predictor. -/
theorem claim_C7 (sig : ℚ → ℚ) :
    (∀ (lm : LinearModel) (f : FeatureVector), lm.IsTrained = false →
      LinearModel.Predict sig lm f = (lm.heuristicPredict f, 0.5))
    ∧ (∀ (nn : NeuralNetwork) (f : FeatureVector), nn.IsTrained = false →
      NeuralNetwork.Predict sig nn f = (emptyLinearModel.heuristicPredict f, 0.3))
    ∧ (∀ (lm : LinearModel) (f : FeatureVector),
      lm.heuristicPredict f =
        (if f.CPUUtilization > 80 then (1.5 : ℚ)
          else if f.CPUUtilization < 30 then 0.7 else 1) *
        (if f.MemoryUtilization > 80 then (1.3 : ℚ)
          else if f.MemoryUtilization < 30 then 0.8 else 1) *
        (if f.RequestRate > 100 then (1.2 : ℚ)
          else if f.RequestRate < 10 then 0.9 else 1)) := by
  refine ⟨?_, ?_, heuristicPredict_eq_prod⟩
  · intro lm f h
    unfold LinearModel.Predict
    rw [if_pos h]
  · intro nn f h
    unfold NeuralNetwork.Predict
    rw [if_pos h]

/-- Claim C7 witness: the untrained linear and neural predictors on the
high-CPU snapshot follow the heuristic (factor 1.5), with confidences
0.5 and 0.3 respectively. -/
theorem claim_C7_witness :
    lmA.IsTrained = false ∧
    LinearModel.Predict sigHalf lmA (extractFeatures 0 0 mdUp) =
      (lmA.heuristicPredict (extractFeatures 0 0 mdUp), 0.5) := by
  refine ⟨rfl, (claim_C7 sigHalf).1 lmA (extractFeatures 0 0 mdUp) rfl⟩

/-- Claim C10: with no ensemble member trained, the default two-member
ensemble returns exactly the heuristic scale factor (the member weights
0.6 and 0.4 cancel in the normalizer because both untrained members
return the same heuristic value) with confidence 0.6·0.5 + 0.4·0.3 =
0.42, and never an error; in particular this holds for the ensemble
`createModel` constructs. -/
theorem claim_C10 (sig : ℚ → ℚ) :
    (∀ (lm : LinearModel) (nn : NeuralNetwork) (cfg : AIModelConfig) (f : FeatureVector),
      lm.IsTrained = false → nn.IsTrained = false →
      EnsembleModel.Predict sig
          { Models := [BaseModel.linear lm, BaseModel.neural nn]
          , Weights := [0.6, 0.4], Config := cfg } f =
        Except.ok (lm.heuristicPredict f, 21/50))
    ∧ (∀ (cfg : ScalingConfig) (f : FeatureVector),
      cfg.AIModel.ModelType = strEnsemble →
      (createModel cfg).Predict sig f =
        Except.ok (emptyLinearModel.heuristicPredict f, 21/50)) := by
  constructor
  · intro lm nn cfg f hlm hnn
    exact ensembleUntrained sig lm nn cfg f hlm hnn
  · intro cfg f h
    have hne : cfg.AIModel.ModelType ≠ strNeuralNetwork := by
      rw [h]; decide
    unfold createModel
    rw [if_neg hne, if_pos h]
    simp only [Model.Predict]
    rw [ensembleUntrained sig _ _ cfg.AIModel f rfl rfl]
    rfl

/-- Claim C4 witness: the constant sigmoid stand-in meets the
hypothesis, and the linear-predictor bounds hold on the high-CPU
snapshot. -/
theorem claim_C4_witness :
    (∀ x, 0 < sigHalf x ∧ sigHalf x < 1) ∧
    (1/2 < (LinearModel.Predict sigHalf lmA (extractFeatures 0 0 mdUp)).1 ∧
     (LinearModel.Predict sigHalf lmA (extractFeatures 0 0 mdUp)).1 < 47/20 ∧
     0 ≤ (LinearModel.Predict sigHalf lmA (extractFeatures 0 0 mdUp)).2 ∧
     (LinearModel.Predict sigHalf lmA (extractFeatures 0 0 mdUp)).2 ≤ 1) := by
  have hs : ∀ x, 0 < sigHalf x ∧ sigHalf x < 1 := fun x => by norm_num [sigHalf]
  exact ⟨hs, (claim_C4 sigHalf hs).1 lmA (extractFeatures 0 0 mdUp)⟩

/-- Claim C10 witness: instantiation on the fresh untrained members and
the high-CPU snapshot, where the heuristic factor is 1.5. -/
theorem claim_C10_witness :
    lmA.IsTrained = false ∧
    EnsembleModel.Predict sigHalf
        { Models :=
            [ BaseModel.linear lmA
            , BaseModel.neural
                { HiddenLayer := [], Weights1 := [], Weights2 := [], Bias1 := [], Bias2 := []
                , LearningRate := 1/100, IsTrained := false, Config := cfgA.AIModel } ]
        , Weights := [0.6, 0.4], Config := cfgA.AIModel } (extractFeatures 0 0 mdUp) =
      Except.ok (lmA.heuristicPredict (extractFeatures 0 0 mdUp), 21/50) := by
  exact ⟨rfl, (claim_C10 sigHalf).1 lmA _ cfgA.AIModel (extractFeatures 0 0 mdUp) rfl rfl⟩

/-- Claim C1, amended: every decision emitted by `MakeScalingDecision`
has its recommended replica count between the process-wide configured
minimum and maximum bounds (given the validated `min ≤ max`); the
per-ingress min-replicas/max-replicas annotations are never consulted,
so the effective bounds of the claim reduce to the process-wide ones. -/
theorem claim_C1 (sig : ℚ → ℚ) (now : ℤ) (hour weekday : ℚ)
    (s : AIScaler) (md : MetricsData) (d : ScalingDecision)
    (hb : s.config.MinReplicas ≤ s.config.MaxReplicas)
    (h : (MakeScalingDecision sig now hour weekday s (some md)).1 = Except.ok (some d)) :
    s.config.MinReplicas ≤ d.RecommendedReplicas ∧
    d.RecommendedReplicas ≤ s.config.MaxReplicas := by
  obtain ⟨pr, _, _, hd⟩ := makeScalingDecision_inv sig now hour weekday s md d h
  subst hd
  simp only [decisionOf]
  exact applyConstraints_bounds s.config hb _

/-- Claim C2, amended: for a target whose snapshot is present and whose
predictor succeeds, `MakeScalingDecision` returns no decision exactly
when a cooldown timestamp is stored for the target and less than
`max(scaleUpCooldown, scaleDownCooldown)` has elapsed since it — the
stored timestamp carries no direction, and the source ORs both windows,
so the longer cooldown governs both directions. -/
theorem claim_C2 (sig : ℚ → ℚ) (now : ℤ) (hour weekday : ℚ)
    (s : AIScaler) (md : MetricsData) (pr : ℚ × ℚ)
    (hp : s.model.Predict sig (extractFeatures hour weekday md) = Except.ok pr) :
    (MakeScalingDecision sig now hour weekday s (some md)).1 = Except.ok none ↔
      ∃ last, s.cooldownTracker (cooldownKey md) = some last ∧
        (now - last < s.config.Cooldown.ScaleUpCooldown ∨
         now - last < s.config.Cooldown.ScaleDownCooldown) :=
  (makeScalingDecision_none_iff sig now hour weekday s md pr hp).trans
    (isInCooldown_iff s now (cooldownKey md))

/-- Claim C3, amended: with dry-run enabled no sequence of reconcile
passes ever changes the workload (so no replica count is ever updated),
but the scaler state — including the cooldown tracker — evolves exactly
as it would without dry-run, because `MakeScalingDecision` records the
cooldown entry before the controller consults the dry-run flag. -/
theorem claim_C3 :
    (∀ (sig : ℚ → ℚ) (ingr : IngressMeta) (st : AIScaler × Option Deployment)
      (inputs : List ReconcileInput),
      (runReconciles true sig ingr st inputs).2 = st.2)
    ∧ (∀ (dryRun : Bool) (sig : ℚ → ℚ) (now : ℤ) (hour weekday : ℚ)
        (ingr : IngressMeta) (s : AIScaler) (dep : Option Deployment)
        (md : Option MetricsData),
      (processService dryRun sig now hour weekday ingr s dep md).1 =
        (MakeScalingDecision sig now hour weekday s md).2) := by
  constructor
  · intro sig ingr st inputs
    exact runReconciles_dry_dep sig ingr inputs st
  · intro dryRun sig now hour weekday ingr s dep md
    exact processService_scaler dryRun sig now hour weekday ingr s dep md

/-- Claim C5: the projection takes current replicas as 1 when the
snapshot reports 0, leaves the count unchanged in the dead band
[0.9, 1.1], takes the ceiling of current × factor above it and the
floor below it, and the clamp to bounds is applied after this rounding. -/
theorem claim_C5 :
    (∀ (c : ℤ) (f : ℚ),
      ((9:ℚ)/10 ≤ f → f ≤ 11/10 → calculateRecommendedReplicas c f = c)
      ∧ (f > 11/10 → calculateRecommendedReplicas c f = Int.ceil ((c:ℚ) * f))
      ∧ (f < 9/10 → calculateRecommendedReplicas c f = Int.floor ((c:ℚ) * f)))
    ∧ (∀ (sig : ℚ → ℚ) (now : ℤ) (hour weekday : ℚ) (s : AIScaler)
        (md : MetricsData) (d : ScalingDecision),
      (MakeScalingDecision sig now hour weekday s (some md)).1 = Except.ok (some d) →
      ∃ pr, s.model.Predict sig (extractFeatures hour weekday md) = Except.ok pr ∧
        d.CurrentReplicas = (if md.CurrentReplicas = 0 then 1 else md.CurrentReplicas) ∧
        d.RecommendedReplicas =
          applyConstraints s.config (calculateRecommendedReplicas d.CurrentReplicas pr.1)) := by
  constructor
  · intro c f
    have h11 : (1.1 : ℚ) = 11/10 := by norm_num
    have h09 : (0.9 : ℚ) = 9/10 := by norm_num
    refine ⟨?_, ?_, ?_⟩
    · intro h1 h2
      unfold calculateRecommendedReplicas
      rw [if_neg (by rw [h11]; exact not_lt.mpr h2), if_neg (by rw [h09]; exact not_lt.mpr h1)]
    · intro h
      unfold calculateRecommendedReplicas
      rw [if_pos (by rw [h11]; exact h)]
    · intro h
      unfold calculateRecommendedReplicas
      rw [if_neg (by rw [h11]; intro hc; linarith), if_pos (by rw [h09]; exact h)]
  · intro sig now hour weekday s md d h
    obtain ⟨pr, hp, _, hd⟩ := makeScalingDecision_inv sig now hour weekday s md d h
    subst hd
    exact ⟨pr, hp, rfl, rfl⟩

/-- Claim C6 counterexample: the claim asserts no decision is produced
when the snapshot reports zero observed replicas, but on such a snapshot
the scaler substitutes 1 for the current count and emits a decision. -/
theorem claim_C6_cex :
    mdZero.CurrentReplicas = 0 ∧
    isInCooldown s0 0 (cooldownKey mdZero) = false ∧
    (MakeScalingDecision sigHalf 0 0 0 s0 (some mdZero)).1 = Except.ok (some dZero) ∧
    dZero.CurrentReplicas = 1 := by
  refine ⟨rfl, rfl, ?_, rfl⟩
  rw [makeScalingDecision_emit sigHalf 0 0 0 s0 mdZero (3/2, 1/2) rfl predict_s0_mdZero]
  rw [decisionOf_mdZero]

/-- Claim C6, amended: `MakeScalingDecision` returns no decision exactly
when the snapshot is nil or the target is in cooldown; a snapshot
reporting zero observed replicas is not rejected — the current count is
taken as 1 and a decision is emitted. -/
theorem claim_C6 (sig : ℚ → ℚ) (now : ℤ) (hour weekday : ℚ)
    (s : AIScaler) (md : MetricsData) (pr : ℚ × ℚ)
    (hp : s.model.Predict sig (extractFeatures hour weekday md) = Except.ok pr) :
    ((MakeScalingDecision sig now hour weekday s none).1 = Except.error errNilMetrics)
    ∧ ((MakeScalingDecision sig now hour weekday s (some md)).1 = Except.ok none ↔
        isInCooldown s now (cooldownKey md) = true)
    ∧ (isInCooldown s now (cooldownKey md) = false →
        (MakeScalingDecision sig now hour weekday s (some md)).1 =
          Except.ok (some (decisionOf s.config now hour weekday md pr)) ∧
        (decisionOf s.config now hour weekday md pr).CurrentReplicas =
          (if md.CurrentReplicas = 0 then 1 else md.CurrentReplicas)) := by
  refine ⟨rfl, makeScalingDecision_none_iff sig now hour weekday s md pr hp, ?_⟩
  intro hcd
  rw [makeScalingDecision_emit sig now hour weekday s md pr hcd hp]
  exact ⟨rfl, rfl⟩

/-- Claim C9: after the cleanup step that ends a collection cycle, every
snapshot remaining in the target's history is no older than `now` minus
the retention period, and the history stays ordered with non-decreasing
timestamps (given the clock only moves forward across appends). -/
theorem claim_C9 (now retention : ℤ) (history : List MetricsData) (md : MetricsData)
    (hs : TimestampSorted history)
    (hle : ∀ m ∈ history, m.Timestamp ≤ md.Timestamp) :
    (∀ m ∈ collectCycle now retention history md, now - retention ≤ m.Timestamp)
    ∧ TimestampSorted (collectCycle now retention history md) := by
  constructor
  · intro m hm
    unfold collectCycle cleanOldMetrics at hm
    have := List.of_mem_filter hm
    simp at this
    linarith
  · unfold collectCycle cleanOldMetrics storeMetrics
    apply List.Pairwise.filter
    unfold TimestampSorted at hs
    rw [List.pairwise_append]
    refine ⟨hs, by simp, ?_⟩
    intro a ha b hb
    simp at hb
    subst hb
    exact hle a ha

/-- Claim C9 witness: a two-snapshot history at times 1 and 5, a fresh
snapshot at time 10, retention 6: the cycle keeps exactly the entries
younger than 4, all at least `now − retention`, still sorted. -/
theorem claim_C9_witness :
    TimestampSorted [mdT 1, mdT 5] ∧
    (∀ m ∈ [mdT 1, mdT 5], m.Timestamp ≤ (mdT 10).Timestamp) ∧
    (∀ m ∈ collectCycle 10 6 [mdT 1, mdT 5] (mdT 10), (10:ℤ) - 6 ≤ m.Timestamp) ∧
    TimestampSorted (collectCycle 10 6 [mdT 1, mdT 5] (mdT 10)) := by
  have hs : TimestampSorted [mdT 1, mdT 5] := by
    unfold TimestampSorted
    simp [mdT]
  have hle : ∀ m ∈ [mdT 1, mdT 5], m.Timestamp ≤ (mdT 10).Timestamp := by
    intro m hm
    simp [mdT] at hm
    rcases hm with h | h <;> simp [h, mdT]
  obtain ⟨h1, h2⟩ := claim_C9 10 6 [mdT 1, mdT 5] (mdT 10) hs hle
  exact ⟨hs, hle, h1, h2⟩

/-- Claim C1 counterexample: the claim requires emitted decisions to
respect the per-ingress annotation bounds, but an ingress capping
max-replicas at 2 is ignored — the pass scales the workload to 3
replicas, above the effective maximum of 2. -/
theorem claim_C1_cex :
    effectiveMax s0.config annOnlyMax = 2 ∧
    processService false sigHalf 0 0 0 annOnlyMax s0 (some dep0) (some mdUp) =
      (s1, some dep3, none) ∧
    dep3.Replicas = 3 ∧ ¬ ((3:ℤ) ≤ 2) := by
  exact ⟨rfl, ps_wet, rfl, by norm_num⟩

/-- Claim C1 witness: under `cfgA` (bounds 1..10) the decision on the
high-CPU snapshot recommends 3 replicas, inside the configured bounds. -/
theorem claim_C1_witness :
    s0.config.MinReplicas ≤ s0.config.MaxReplicas ∧
    (MakeScalingDecision sigHalf 0 0 0 s0 (some mdUp)).1 = Except.ok (some dUp) ∧
    s0.config.MinReplicas ≤ dUp.RecommendedReplicas ∧
    dUp.RecommendedReplicas ≤ s0.config.MaxReplicas := by
  have hb : s0.config.MinReplicas ≤ s0.config.MaxReplicas := by decide
  have h : (MakeScalingDecision sigHalf 0 0 0 s0 (some mdUp)).1 = Except.ok (some dUp) := by
    rw [msd_up]
  obtain ⟨h1, h2⟩ := claim_C1 sigHalf 0 0 0 s0 mdUp dUp hb h
  exact ⟨hb, h, h1, h2⟩

/-- Claim C2 counterexample: the last committed action on the target was
a scale-up (2 → 3) at time 0; the scale-up cooldown is 10 and 50 > 10
has elapsed, so the claim demands a decision at time 50 — but the scaler
returns none, because the OR of both windows keeps the target blocked
until the longer scale-down cooldown (100) expires. -/
theorem claim_C2_cex :
    (MakeScalingDecision sigHalf 0 0 0 s0 (some mdUp)).1 = Except.ok (some dUp) ∧
    dUp.CurrentReplicas < dUp.RecommendedReplicas ∧
    s1.cooldownTracker (cooldownKey mdUp) = some 0 ∧
    s1.config.Cooldown.ScaleUpCooldown = 10 ∧
    ¬ ((50:ℤ) - 0 < 10) ∧
    (MakeScalingDecision sigHalf 50 0 0 s1 (some mdUp)).1 = Except.ok none := by
  refine ⟨by rw [msd_up], by decide, tracker_s1, rfl, by norm_num, ?_⟩
  rw [makeScalingDecision_cooldown sigHalf 50 0 0 s1 mdUp cooldown_s1]

/-- Claim C2 witness: with the cooldown entry at time 0 and the
scale-down window of 100 still open at time 50, the amended
characterization yields the none result. -/
theorem claim_C2_witness :
    s1.model.Predict sigHalf (extractFeatures 0 0 mdUp) = Except.ok (3/2, 1/2) ∧
    (MakeScalingDecision sigHalf 50 0 0 s1 (some mdUp)).1 = Except.ok none := by
  have hp : s1.model.Predict sigHalf (extractFeatures 0 0 mdUp) = Except.ok (3/2, 1/2) :=
    predict_s0_up
  refine ⟨hp, ?_⟩
  exact (claim_C2 sigHalf 50 0 0 s1 mdUp (3/2, 1/2) hp).mpr
    ⟨0, tracker_s1, Or.inr (by decide)⟩

/-- Claim C3 counterexample: the claim asserts dry-run records no
cooldown entry, but a single dry-run reconcile pass on the high-CPU
target records the cooldown timestamp. -/
theorem claim_C3_cex :
    s0.cooldownTracker (cooldownKey mdUp) = none ∧
    (runReconciles true sigHalf annNone (s0, some dep0) [inp0]).1.cooldownTracker
      (cooldownKey mdUp) = some 0 := by
  refine ⟨rfl, ?_⟩
  have hrun : runReconciles true sigHalf annNone (s0, some dep0) [inp0] = (s1, some dep0) := by
    unfold runReconciles
    rw [List.foldl_cons, List.foldl_nil]
    simp only [inp0]
    rw [ps_dry]
  rw [hrun]
  exact tracker_s1

/-- Claim C5 witness: the dead band keeps 5 replicas at factor 1, factor
1.5 rounds 2 × 1.5 up, factor 0.5 rounds 6 × 0.5 down, and the emitted
decision on the high-CPU snapshot is the clamp of the rounded
projection. -/
theorem claim_C5_witness :
    ((9:ℚ)/10 ≤ 1 ∧ (1:ℚ) ≤ 11/10 ∧ calculateRecommendedReplicas 5 1 = 5) ∧
    ((3:ℚ)/2 > 11/10 ∧ calculateRecommendedReplicas 2 (3/2) = Int.ceil ((2:ℤ) * (3/2 : ℚ))) ∧
    ((1:ℚ)/2 < 9/10 ∧ calculateRecommendedReplicas 6 (1/2) = Int.floor ((6:ℤ) * (1/2 : ℚ))) ∧
    ((MakeScalingDecision sigHalf 0 0 0 s0 (some mdUp)).1 = Except.ok (some dUp) ∧
      ∃ pr, s0.model.Predict sigHalf (extractFeatures 0 0 mdUp) = Except.ok pr ∧
        dUp.CurrentReplicas = (if mdUp.CurrentReplicas = 0 then 1 else mdUp.CurrentReplicas) ∧
        dUp.RecommendedReplicas =
          applyConstraints s0.config (calculateRecommendedReplicas dUp.CurrentReplicas pr.1)) := by
  have h := claim_C5
  refine ⟨⟨by norm_num, by norm_num, (h.1 5 1).1 (by norm_num) (by norm_num)⟩,
    ⟨by norm_num, ?_⟩, ⟨by norm_num, ?_⟩, ?_⟩
  · exact (h.1 2 (3/2)).2.1 (by norm_num)
  · exact (h.1 6 (1/2)).2.2 (by norm_num)
  · have hd : (MakeScalingDecision sigHalf 0 0 0 s0 (some mdUp)).1 = Except.ok (some dUp) := by
      rw [msd_up]
    exact ⟨hd, h.2 sigHalf 0 0 0 s0 mdUp dUp hd⟩

/-- Claim C6 witness: on the zero-replica snapshot outside cooldown the
scaler emits the decision with current count taken as 1. -/
theorem claim_C6_witness :
    s0.model.Predict sigHalf (extractFeatures 0 0 mdZero) = Except.ok (3/2, 1/2) ∧
    isInCooldown s0 0 (cooldownKey mdZero) = false ∧
    (MakeScalingDecision sigHalf 0 0 0 s0 (some mdZero)).1 =
      Except.ok (some (decisionOf s0.config 0 0 0 mdZero (3/2, 1/2))) ∧
    (decisionOf s0.config 0 0 0 mdZero (3/2, 1/2)).CurrentReplicas =
      (if mdZero.CurrentReplicas = 0 then 1 else mdZero.CurrentReplicas) := by
  have hp := predict_s0_mdZero
  obtain ⟨-, -, h3⟩ := claim_C6 sigHalf 0 0 0 s0 mdZero (3/2, 1/2) hp
  obtain ⟨ha, hb⟩ := h3 rfl
  exact ⟨hp, rfl, ha, hb⟩

/-- Claim C8: training on fewer than 10 samples fails; every failure
leaves the model — weights, bias and trained flag — exactly as it was;
and a successful pass installs weights solving the normal equations
`XᵀX · w = Xᵀy` over the supplied samples, marks the model trained, and
leaves the bias untouched. -/
theorem claim_C8 (lm : LinearModel) (data : List TrainingData) :
    (data.length < 10 → LinearModel.Train lm data = (lm, some errInsufficientData))
    ∧ (∀ e, (LinearModel.Train lm data).2 = some e → (LinearModel.Train lm data).1 = lm)
    ∧ ((LinearModel.Train lm data).2 = none →
        (LinearModel.Train lm data).1.Bias = lm.Bias ∧
        (LinearModel.Train lm data).1.IsTrained = true ∧
        ∃ w : Fin numFeatures → ℚ,
          (LinearModel.Train lm data).1.Weights = List.ofFn w ∧
          ((trainX lm data).transpose * trainX lm data).mulVec w =
            (trainX lm data).transpose.mulVec (trainY data)) := by
  refine ⟨?_, ?_, ?_⟩
  · intro hlen
    unfold LinearModel.Train
    rw [if_pos hlen]
  · intro e he
    unfold LinearModel.Train at he ⊢
    by_cases hlen : data.length < 10
    · rw [if_pos hlen]
    · rw [if_neg hlen] at he ⊢
      simp only [] at he ⊢
      by_cases hdet : ((trainX lm data).transpose * trainX lm data).det = 0
      · rw [if_pos hdet]
      · rw [if_neg hdet] at he
        simp at he
  · intro hnone
    unfold LinearModel.Train at hnone ⊢
    by_cases hlen : data.length < 10
    · rw [if_pos hlen] at hnone
      simp at hnone
    · rw [if_neg hlen] at hnone ⊢
      simp only [] at hnone ⊢
      by_cases hdet : ((trainX lm data).transpose * trainX lm data).det = 0
      · rw [if_pos hdet] at hnone
        simp at hnone
      · rw [if_neg hdet] at hnone ⊢
        refine ⟨rfl, rfl, _, rfl, ?_⟩
        rw [Matrix.mulVec_mulVec, Matrix.mul_smul, Matrix.mul_adjugate, smul_smul,
          inv_mul_cancel₀ hdet, one_smul, Matrix.one_mulVec]

/-- Claim C8 witness: the empty sample list fails and leaves the model
unchanged; twelve samples whose normalized feature rows form the
identity matrix train successfully, mark the model trained, keep the
bias, and install weights solving the normal equations. -/
theorem claim_C8_witness :
    (([] : List TrainingData).length < 10 ∧
      LinearModel.Train emptyLinearModel [] = (emptyLinearModel, some errInsufficientData)) ∧
    ((LinearModel.Train emptyLinearModel []).2 = some errInsufficientData ∧
      (LinearModel.Train emptyLinearModel []).1 = emptyLinearModel) ∧
    ((LinearModel.Train emptyLinearModel data12).2 = none ∧
      (LinearModel.Train emptyLinearModel data12).1.IsTrained = true ∧
      (LinearModel.Train emptyLinearModel data12).1.Bias = emptyLinearModel.Bias ∧
      ∃ w : Fin numFeatures → ℚ,
        (LinearModel.Train emptyLinearModel data12).1.Weights = List.ofFn w ∧
        ((trainX emptyLinearModel data12).transpose * trainX emptyLinearModel data12).mulVec w =
          (trainX emptyLinearModel data12).transpose.mulVec (trainY data12)) := by
  have hfail := (claim_C8 emptyLinearModel []).1 (by decide)
  have h21 := (claim_C8 emptyLinearModel []).2.1 errInsufficientData (by rw [hfail])
  have hsucc := train_data12_success
  obtain ⟨hBias, hTr, hw⟩ := (claim_C8 emptyLinearModel data12).2.2 hsucc
  exact ⟨⟨by decide, hfail⟩, ⟨by rw [hfail], h21⟩, hsucc, hTr, hBias, hw⟩

end HydraAI
